import Mathlib

set_option maxRecDepth 4096

/-!
Shallow embedding of the request-handling core of the vj4 online judge:
`vj4/view/base.py` (session manager, permission resolver, view dispatch,
guards) and `vj4/controller/problemlist.py` (problem-list CRUD facade).

Python dicts carrying string keys are embedded as association lists with
first-match lookup (the semantics of `dict.get` / `MultiDict.getone`);
Python truthiness of an optional cookie string is `truthy`; the external
token store and document store are oracles / explicit state.
-/

namespace VJ4

/-- Python `d.get(k)` on a string-keyed mapping: first matching value. -/
def dget (d : List (String × α)) (k : String) : Option α :=
  d.lookup k

/-- Python truthiness of a cookie value: `None` and the empty string are
falsy, any other string is truthy. -/
def truthy : Option String → Bool
  | none => false
  | some s => s ≠ ""

/-- Python `d.pop(k, dflt)`: the first value bound to `k` (or `dflt`), and
the mapping with that first binding removed. -/
def pop_default (d : List (String × String)) (k : String) (dflt : String) :
    String × List (String × String) :=
  match d.lookup k with
  | some v => (v, d.eraseP (fun p => p.1 == k))
  | none => (dflt, d)

/-! ## Permission resolver (`ViewBase.has_perm`, base.py lines 56-59) -/

/-- User document as read by `has_perm`/`has_priv`: `_id`, per-domain
`roles` map, global `priv` bitmask. -/
structure User where
  _id : Int
  roles : List (String × String)
  priv : Nat
deriving DecidableEq, Repr

/-- Domain document as read by `has_perm`: `owner_uid` and the
role-to-bitmask `roles` map. -/
structure Domain where
  owner_uid : Int
  roles : List (String × Nat)
deriving DecidableEq, Repr

/-- Embedding of `ViewBase.has_perm`.  `ROLE_DEFAULT` and `PERM_NONE` are
the process-wide fallbacks from `vj4.model.builtin` (external to these two
files), taken as parameters.  Source:
`role = self.user['roles'].get(self.domain_id, builtin.ROLE_DEFAULT)`;
`mask = self.domain['roles'].get(role, builtin.PERM_NONE)`;
`return (perm & mask) == perm or self.domain['owner_uid'] == self.user['_id']`. -/
def has_perm (ROLE_DEFAULT : String) (PERM_NONE : Nat) (u : User) (dom : Domain)
    (domain_id : String) (perm : Nat) : Bool :=
  let role := (dget u.roles domain_id).getD ROLE_DEFAULT
  let mask := (dget dom.roles role).getD PERM_NONE
  ((perm &&& mask) == perm) || (dom.owner_uid == u._id)

/-- The effective mask the claim speaks about: the domain's bitmask for the
user's role in that domain, falling back to the default role and then the
no-permission mask when absent. -/
def role_mask (ROLE_DEFAULT : String) (PERM_NONE : Nat) (u : User) (dom : Domain)
    (domain_id : String) : Nat :=
  (dget dom.roles ((dget u.roles domain_id).getD ROLE_DEFAULT)).getD PERM_NONE

/-! ## Content negotiation (`View.prefer_json`, base.py lines 181-188) -/

/-- One parsed entry of an `Accept` header as exposed by the external
`accept` library: its media type and its wildcard-all flag. -/
structure MediaEntry where
  media_type : String
  all_types : Bool
deriving DecidableEq, Repr

/-- Embedding of the loop body of `View.prefer_json`: scan the parsed
entries in order; `application/json` returns true, `text/html` or a
wildcard-all entry returns false, exhaustion returns false. -/
def prefer_json : List MediaEntry → Bool
  | [] => false
  | d :: rest =>
    if d.media_type == "application/json" then true
    else if d.media_type == "text/html" || d.all_types then false
    else prefer_json rest

/-- Split a character list at commas. -/
def splitCommas : List Char → List Char → List (List Char)
  | [], acc => [acc.reverse]
  | c :: cs, acc =>
    if c = ',' then acc.reverse :: splitCommas cs []
    else splitCommas cs (c :: acc)

/-- Strip leading and trailing spaces from a character list. -/
def trimChars (l : List Char) : List Char :=
  ((l.dropWhile (· = ' ')).reverse.dropWhile (· = ' ')).reverse

/-- Modelled from the spec: the external `accept` library's parse of an
`Accept` header (absent header yields no entries; otherwise the
comma-separated media types in order, `*/*` flagged as wildcard-all).
Quality parameters are not needed by the claims and are not modelled. -/
def accept_parse : Option String → List MediaEntry
  | none => []
  | some h => (splitCommas h.toList []).map (fun cs =>
      let t := String.mk (trimChars cs)
      { media_type := t, all_types := t == "*/*" })

/-! ## Operation dispatch (`OperationView.post`, base.py lines 211-219) -/

/-- Outcome of `OperationView.post`: the resolved handler invoked with the
remaining form fields, `InvalidOperationError(operation)`, or the raw
`KeyError` that `arguments.pop('operation')` raises when the field is
absent (the `try` only guards the `getattr`). -/
inductive PostOutcome where
  | handled (operation : String) (args : List (String × String))
  | invalidOperation (operation : String)
  | keyError (key : String)
deriving DecidableEq, Repr

/-- Embedding of `OperationView.post`.  `form` is the posted form data
(copied multidict), `handlers` the method names defined on the view.
`arguments.pop('operation')` raises `KeyError` when the field is missing;
otherwise `getattr(self, 'post_' + operation)` is attempted, its
`AttributeError` translated to `InvalidOperationError(operation)`, and on
success the handler runs with the remaining fields. -/
def operation_view_post (form : List (String × String)) (handlers : List String) :
    PostOutcome :=
  match form.lookup "operation" with
  | none => PostOutcome.keyError "operation"
  | some op =>
    let args := form.eraseP (fun p => p.1 == "operation")
    if handlers.contains ("post_" ++ op) then PostOutcome.handled op args
    else PostOutcome.invalidOperation op

/-! ## Session manager (`ViewBase.update_session` / `delete_session` /
`clear_cookies`, base.py lines 72-135) -/

/-- The two token-type classes of `vj4.model.token` used for sessions. -/
inductive TokenType where
  | saved
  | unsaved
deriving DecidableEq, Repr

/-- Session token document as used by `update_session`: its binary `_id`
is what the CSRF token is derived from, `expire_at` is the timestamp the
saved-session cookie expiry is formatted from. -/
structure Session where
  _id : List Nat
  expire_at : Nat
  uid : Option Int := none
deriving DecidableEq, Repr

/-- Process-wide session configuration (`vj4.util.options`, external):
TTLs of the two session classes. -/
structure Options where
  saved_session_expire_seconds : Nat
  unsaved_session_expire_seconds : Nat
deriving DecidableEq, Repr

/-- One `response.set_cookie` call: name, value, and the optional
`expires` (formatted timestamp, `some 0` is the epoch) and `max_age`
attributes.  The always-present domain/secure/httponly attributes carry
no claim content and are not modelled. -/
structure SetCookie where
  name : String
  value : String
  expires : Option Nat := none
  max_age : Option Nat := none
deriving DecidableEq, Repr

/-- One write against the external token store issued by
`update_session`: `token.update(sid, type, ...)` or
`token.add(type, ...)`. -/
inductive StoreEffect where
  | update (sid : String) (ttype : TokenType)
  | add (ttype : TokenType)
deriving DecidableEq, Repr

/-- Embedding of `ViewBase.clear_cookies(*names)`: for each name that is
present in the request cookies, set it to the empty value with an epoch
expiry (`utils.formatdate(0)`); absent names are skipped
(`if name in self.request.cookies`). -/
def clear_cookies (cookies : List (String × String)) (names : List String) :
    List SetCookie :=
  names.filterMap (fun n =>
    if (dget cookies n).isSome then
      some { name := n, value := "", expires := some 0, max_age := none }
    else none)

/-- Result of `update_session`: the returned session document (`none`
embeds the `{}` returned when no session exists), the token-store writes
issued, and the `set_cookie` calls made on the response, in order. -/
structure UpdateSessionResult where
  session : Option Session
  writes : List StoreEffect
  cookies_set : List SetCookie
deriving DecidableEq, Repr

/-- Embedding of `ViewBase.update_session(new_saved=..., **kwargs)`.

The external token store is an oracle: `updateResult` is what
`token.update` returns if called (renewed session or miss) and
`addResult` what `token.add` returns if called (new sid and document).
Following the source: read `sid`/`save` cookies; when `sid` is falsy,
`save` becomes `new_saved`; `save` selects token type and TTL; a truthy
`sid` issues `token.update`; `token.add` is issued only when `kwargs` is
non-empty and no session was obtained; on a live session the `sid`
cookie (and, in saved mode, a `save` cookie and `expires`/`max_age` on
both, since the mutated `cookie_kwargs` dict is reused) is set,
otherwise both cookies are cleared; the session or `{}` is returned. -/
def update_session (opts : Options) (cookies : List (String × String))
    (new_saved : Bool) (kwargs : List (String × String))
    (updateResult : Option Session) (addResult : String × Session) :
    UpdateSessionResult :=
  let sid0 := dget cookies "sid"
  let save : Bool := if truthy sid0 then truthy (dget cookies "save") else new_saved
  let token_type := if save then TokenType.saved else TokenType.unsaved
  let session_expire_seconds :=
    if save then opts.saved_session_expire_seconds
    else opts.unsaved_session_expire_seconds
  let updateWrites : List StoreEffect :=
    if truthy sid0 then [StoreEffect.update (sid0.getD "") token_type] else []
  let session1 : Option Session := if truthy sid0 then updateResult else none
  let doAdd : Bool := !kwargs.isEmpty && session1.isNone
  let sid : Option String := if doAdd then some addResult.1 else sid0
  let session2 : Option Session := if doAdd then some addResult.2 else session1
  let addWrites : List StoreEffect := if doAdd then [StoreEffect.add token_type] else []
  let cookies_set : List SetCookie :=
    match session2 with
    | some s =>
      if save then
        [{ name := "save", value := "1", expires := some s.expire_at,
           max_age := some session_expire_seconds },
         { name := "sid", value := sid.getD "", expires := some s.expire_at,
           max_age := some session_expire_seconds }]
      else
        [{ name := "sid", value := sid.getD "", expires := none, max_age := none }]
    | none => clear_cookies cookies ["sid", "save"]
  { session := session2, writes := updateWrites ++ addWrites, cookies_set := cookies_set }

/-- One event of `delete_session`, in program order: the
`token.delete(sid, token_type)` call or a `set_cookie` issued by
`clear_cookies`. -/
inductive DeleteEvent where
  | del (sid : String) (ttype : TokenType)
  | setc (c : SetCookie)
deriving DecidableEq, Repr

/-- Embedding of `ViewBase.delete_session`: when the `sid` cookie is
truthy, delete the token store entry for `(sid, type inferred from the
save cookie)` — the boolean result `deleteResult` returned by the store
(true for deleted, false for not found) is never read — then run
`clear_cookies('sid', 'save')`. -/
def delete_session (cookies : List (String × String)) (deleteResult : Bool) :
    List DeleteEvent :=
  let sid0 := dget cookies "sid"
  let save0 := dget cookies "save"
  let dels : List DeleteEvent :=
    if truthy sid0 then
      [DeleteEvent.del (sid0.getD "")
        (if truthy save0 then TokenType.saved else TokenType.unsaved)]
    else []
  dels ++ (clear_cookies cookies ["sid", "save"]).map DeleteEvent.setc

/-! ## View dispatch and error translation (`View.__iter__`,
base.py lines 151-167) -/

/-- A user-facing error of the `vj4.error` taxonomy as consumed by the
dispatch wrapper: its declared HTTP status, its `to_dict()` payload and
its error template name. -/
structure UserFacingError where
  http_status : Nat
  to_dict : List (String × String)
  template_name : String
deriving DecidableEq, Repr

/-- What preparation or the handler raises, if anything: a taxonomy
error or any other exception. -/
inductive PyErr where
  | userFacing (e : UserFacingError)
  | other (msg : String)
deriving DecidableEq, Repr

/-- Response body produced by the dispatch wrapper: the handler's own
body, the JSON encoding of the object with single key `error` bound to
`e.to_dict()`, or the rendered error template with the error bound into
the template context. -/
inductive Body where
  | handler (text : String)
  | jsonError (d : List (String × String))
  | renderedError (template : String) (e : UserFacingError)
deriving DecidableEq, Repr

/-- Outcome of one dispatched request: a response (status, content type,
body, whether a warning was logged) or an exception propagating out of
this layer uncaught. -/
inductive DispatchResult where
  | response (status : Option Nat) (content_type : String) (body : Body)
      (logged : Bool)
  | propagated (msg : String)
deriving DecidableEq, Repr

/-- Embedding of `View.__iter__`: run `prepare` then the handler inside
one `try`; an `error.UserFacingError` is logged, sets the status from
`e.http_status`, and is encoded as `{'error': e.to_dict()}` JSON when the
client prefers JSON, else rendered through `e.template_name` with the
error bound into the context; any other exception is not caught here.
`prepareOutcome`/`handlerOutcome` are what the two phases do;
`handlerStatus`/`handlerCT`/`handlerBody` describe the response a
successful handler left behind. -/
def view_iter (prepareOutcome : Option PyErr) (handlerOutcome : Option PyErr)
    (prefer_json_val : Bool) (handlerStatus : Option Nat) (handlerCT : String)
    (handlerBody : String) : DispatchResult :=
  let raised : Option PyErr :=
    match prepareOutcome with
    | some e => some e
    | none => handlerOutcome
  match raised with
  | none => DispatchResult.response handlerStatus handlerCT (Body.handler handlerBody) false
  | some (PyErr.userFacing e) =>
    if prefer_json_val then
      DispatchResult.response (some e.http_status) "application/json"
        (Body.jsonError e.to_dict) true
    else
      DispatchResult.response (some e.http_status) "text/html"
        (Body.renderedError e.template_name e) true
  | some (PyErr.other m) => DispatchResult.propagated m

/-! ## SHA-256, HMAC and the CSRF token (`_get_csrf_token`,
`ViewBase.csrf_token`, `require_csrf_token`, base.py lines 144-149,
243-245, 298-304).  Machine words are `Nat` reduced mod `2^32`. -/

/-- The modulus of a 32-bit word. -/
def M32 : Nat := 4294967296

/-- Right rotation of a 32-bit word by `n` places. -/
def rotr (n x : Nat) : Nat := ((x >>> n) ||| (x <<< (32 - n))) % M32

/-- SHA-256 big sigma 0. -/
def bsig0 (x : Nat) : Nat := (rotr 2 x) ^^^ (rotr 13 x) ^^^ (rotr 22 x)

/-- SHA-256 big sigma 1. -/
def bsig1 (x : Nat) : Nat := (rotr 6 x) ^^^ (rotr 11 x) ^^^ (rotr 25 x)

/-- SHA-256 small sigma 0. -/
def ssig0 (x : Nat) : Nat := (rotr 7 x) ^^^ (rotr 18 x) ^^^ (x >>> 3)

/-- SHA-256 small sigma 1. -/
def ssig1 (x : Nat) : Nat := (rotr 17 x) ^^^ (rotr 19 x) ^^^ (x >>> 10)

/-- SHA-256 choice function; complement is within 32 bits. -/
def chf (x y z : Nat) : Nat := (x &&& y) ^^^ ((x ^^^ (M32 - 1)) &&& z)

/-- SHA-256 majority function. -/
def maj (x y z : Nat) : Nat := (x &&& y) ^^^ (x &&& z) ^^^ (y &&& z)

/-- The 64 SHA-256 round constants (FIPS 180-4, written in decimal). -/
def K256 : List Nat :=
  [1116352408, 1899447441, 3049323471, 3921009573, 961987163, 1508970993,
   2453635748, 2870763221, 3624381080, 310598401, 607225278, 1426881987,
   1925078388, 2162078206, 2614888103, 3248222580, 3835390401, 4022224774,
   264347078, 604807628, 770255983, 1249150122, 1555081692, 1996064986,
   2554220882, 2821834349, 2952996808, 3210313671, 3336571891, 3584528711,
   113926993, 338241895, 666307205, 773529912, 1294757372, 1396182291,
   1695183700, 1986661051, 2177026350, 2456956037, 2730485921, 2820302411,
   3259730800, 3345764771, 3516065817, 3600352804, 4094571909, 275423344,
   430227734, 506948616, 659060556, 883997877, 958139571, 1322822218,
   1537002063, 1747873779, 1955562222, 2024104815, 2227730452, 2361852424,
   2428436474, 2756734187, 3204031479, 3329325298]

/-- The SHA-256 initial hash value (FIPS 180-4, written in decimal). -/
def H256 : List Nat :=
  [1779033703, 3144134277, 1013904242, 2773480762,
   1359893119, 2600822924, 528734635, 1541459225]

/-- Big-endian byte expansion of `x` into `n` bytes. -/
def toBytesBE : Nat → Nat → List Nat
  | 0, _ => []
  | n + 1, x => toBytesBE n (x / 256) ++ [x % 256]

/-- Pack bytes into big-endian 32-bit words, four at a time. -/
def bytesToWords : List Nat → List Nat
  | b0 :: b1 :: b2 :: b3 :: rest =>
    (((b0 * 256 + b1) * 256 + b2) * 256 + b3) :: bytesToWords rest
  | _ => []

/-- Extend a 16-word message schedule by `n` further words. -/
def extendSchedule : Nat → Array Nat → Array Nat
  | 0, ws => ws
  | n + 1, ws =>
    let i := ws.size
    let w := (ssig1 (ws.getD (i - 2) 0) + ws.getD (i - 7) 0 +
              ssig0 (ws.getD (i - 15) 0) + ws.getD (i - 16) 0) % M32
    extendSchedule n (ws.push w)

/-- The eight working variables of the SHA-256 compression loop. -/
structure Hs where
  a : Nat
  b : Nat
  c : Nat
  d : Nat
  e : Nat
  f : Nat
  g : Nat
  h : Nat
deriving Repr

/-- One SHA-256 round with round constant `k` and schedule word `w`. -/
def sha_round (k w : Nat) (s : Hs) : Hs :=
  let t1 := (s.h + bsig1 s.e + chf s.e s.f s.g + k + w) % M32
  let t2 := (bsig0 s.a + maj s.a s.b s.c) % M32
  { a := (t1 + t2) % M32, b := s.a, c := s.b, d := s.c,
    e := (s.d + t1) % M32, f := s.e, g := s.f, h := s.g }

/-- Run the 64 rounds over the zipped constants and schedule. -/
def sha_rounds : List (Nat × Nat) → Hs → Hs
  | [], s => s
  | (k, w) :: rest, s => sha_rounds rest (sha_round k w s)

/-- Compress one 64-byte block into the running hash (eight words). -/
def sha_compress (hv : List Nat) (block : List Nat) : List Nat :=
  let ws := extendSchedule 48 (Array.mk (bytesToWords block))
  match hv with
  | [a, b, c, d, e, f, g, h] =>
    let s := sha_rounds (K256.zip ws.toList) ⟨a, b, c, d, e, f, g, h⟩
    [(a + s.a) % M32, (b + s.b) % M32, (c + s.c) % M32, (d + s.d) % M32,
     (e + s.e) % M32, (f + s.f) % M32, (g + s.g) % M32, (h + s.h) % M32]
  | _ => hv

/-- SHA-256 padding: append `0x80`, zeros to 56 mod 64, and the 64-bit
big-endian bit length. -/
def sha_pad (msg : List Nat) : List Nat :=
  let L := msg.length
  msg ++ [0x80] ++ List.replicate ((119 - L % 64) % 64) 0 ++ toBytesBE 8 (8 * L)

/-- Fold the compression function over successive 64-byte blocks; the
fuel argument bounds the recursion and any value at least the message
length suffices. -/
def sha_blocks : Nat → List Nat → List Nat → List Nat
  | 0, _, hv => hv
  | fuel + 1, msg, hv =>
    match msg with
    | [] => hv
    | _ => sha_blocks fuel (msg.drop 64) (sha_compress hv (msg.take 64))

/-- SHA-256 of a byte list, as 32 digest bytes. -/
def sha256 (msg : List Nat) : List Nat :=
  let padded := sha_pad msg
  ((sha_blocks padded.length padded H256).map (toBytesBE 4)).flatten

/-- HMAC-SHA256 (RFC 2104): pad or hash the key to the 64-byte block
size, then hash `opad-key ++ sha256 (ipad-key ++ msg)`. -/
def hmac_sha256 (key msg : List Nat) : List Nat :=
  let k0 :=
    if key.length > 64 then sha256 key ++ List.replicate 32 0
    else key ++ List.replicate (64 - key.length) 0
  let ipadded := k0.map (fun b => b ^^^ 0x36)
  let opadded := k0.map (fun b => b ^^^ 0x5c)
  sha256 (opadded ++ sha256 (ipadded ++ msg))

/-- Lowercase hex character of a nibble. -/
def hexChar (n : Nat) : Char :=
  if n < 10 then Char.ofNat (48 + n) else Char.ofNat (87 + n)

/-- Python `hexdigest()`: lowercase hex string of the digest bytes. -/
def hexdigest (bytes : List Nat) : String :=
  String.mk ((bytes.map (fun b => [hexChar (b / 16), hexChar (b % 16)])).flatten)

/-- UTF-8 bytes of an ASCII string literal (code points, adequate for the
fixed key used here). -/
def strBytes (s : String) : List Nat := s.toList.map Char.toNat

/-- Embedding of module-level `_get_csrf_token(session_id_binary)`:
`hmac.new(b'csrf_token', session_id_binary, 'sha256').hexdigest()`.  The
`functools.lru_cache` memoisation caches a pure function and does not
change its value. -/
def _get_csrf_token (session_id_binary : List Nat) : String :=
  hexdigest (hmac_sha256 (strBytes "csrf_token") session_id_binary)

/-- Embedding of the `ViewBase.csrf_token` property: the derived token of
the current session's `_id`, or the empty string when there is no
session (`self.session` falsy). -/
def csrf_token (session : Option Session) : String :=
  match session with
  | some s => _get_csrf_token s._id
  | none => ""

/-- Outcome of the `require_csrf_token` guard: the wrapped handler
invoked with the (possibly popped) keyword arguments, or
`CsrfTokenError`. -/
inductive GuardResult where
  | invoked (kwargs : List (String × String))
  | csrfError
deriving DecidableEq, Repr

/-- Embedding of the `require_csrf_token` decorator around a handler:
`if self.csrf_token and self.csrf_token != kwargs.pop('csrf_token', '')`
raises `CsrfTokenError()`, else the handler runs with `kwargs`.  The
`and` short-circuits: the pop only happens when the expected token is
non-empty. -/
def require_csrf_token (expected : String) (kwargs : List (String × String)) :
    GuardResult :=
  if expected ≠ "" then
    let popped := pop_default kwargs "csrf_token" ""
    if expected ≠ popped.1 then GuardResult.csrfError
    else GuardResult.invoked popped.2
  else GuardResult.invoked kwargs

/-! ## Problem-list controller (`vj4/controller/problemlist.py`) over the
document store contract -/

/-- A field value of a stored document. -/
inductive FieldVal where
  | b (x : Bool)
  | s (x : String)
  | i (x : Int)
deriving DecidableEq, Repr

/-- A stored document: a field map. -/
abbrev Doc := List (String × FieldVal)

/-- Documents are keyed by `(domain_id, doc_type, doc_id)`. -/
abbrev DocKey := String × Nat × String

/-- The document store state. -/
abbrev DocStore := List (DocKey × Doc)

/-- Set one field of a document: overwrite an existing binding in place,
append otherwise. -/
def setField (doc : Doc) (k : String) (v : FieldVal) : Doc :=
  if (doc.lookup k).isSome then
    doc.map (fun p => if p.1 == k then (k, v) else p)
  else doc ++ [(k, v)]

/-- Apply a list of field updates in order. -/
def setFields (doc : Doc) (updates : List (String × FieldVal)) : Doc :=
  updates.foldl (fun d kv => setField d kv.1 kv.2) doc

/-- Modelled from the spec: `vj4.model.document.get(domain_id, type, id)`
— a plain keyed lookup of the document, with no filter on any field. -/
def document_get (store : DocStore) (domain_id : String) (dtype : Nat)
    (did : String) : Option Doc :=
  store.lookup (domain_id, dtype, did)

/-- Modelled from the spec: `vj4.model.document.set(domain_id, type, id,
**fields)` — update the named fields of the stored document and return
the updated document, or leave the store unchanged and return nothing
when no such document exists. -/
def document_set (store : DocStore) (domain_id : String) (dtype : Nat)
    (did : String) (updates : List (String × FieldVal)) : DocStore × Option Doc :=
  match store.lookup (domain_id, dtype, did) with
  | some doc =>
    let updated := setFields doc updates
    (store.map (fun p =>
       if p.1 = (domain_id, dtype, did) then ((domain_id, dtype, did), updated) else p),
     some updated)
  | none => (store, none)

/-- Modelled from the spec: the `document.TYPE_PROBLEM_LIST` type tag
(an opaque constant of `vj4.model.document`, not under src/). -/
def TYPE_PROBLEM_LIST : Nat := 23

/-- Embedding of `problemlist.get(domain_id, lid)`: a plain
`document.get` with no deleted-flag filter (the source carries a
`TODO(twd2): check if deleted?`). -/
def problemlist_get (store : DocStore) (domain_id : String) (lid : String) :
    Option Doc :=
  document_get store domain_id TYPE_PROBLEM_LIST lid

/-- Embedding of `problemlist.delete(domain_id, lid)`:
`document.set(domain_id, TYPE_PROBLEM_LIST, lid, deleted=True)` — a
field update, not a removal. -/
def problemlist_delete (store : DocStore) (domain_id : String) (lid : String) :
    DocStore × Option Doc :=
  document_set store domain_id TYPE_PROBLEM_LIST lid [("deleted", FieldVal.b true)]

end VJ4

namespace VJ4

/-! ## Supporting lemmas -/

/-- FIPS 180-4 test vector: the embedded SHA-256 agrees with the standard
on the message `abc`. -/
theorem sha256_abc_vector :
    hexdigest (sha256 (strBytes "abc")) =
      "ba7816bf8f01cfea414140de5dae2223b00361a396177a9cb410ff61f20015ad" := by
  decide

/-- RFC 4231-style test vector: the embedded HMAC-SHA256 agrees with the
standard construction. -/
theorem hmac_sha256_vector :
    hexdigest (hmac_sha256 (strBytes "key")
        (strBytes "The quick brown fox jumps over the lazy dog")) =
      "f7bc83f430538424b13298e6aa6fb143ef4d59a14946175997479dbc2d1a3cd8" := by
  decide

/-- A key absent from an association list's key column is not found by
`List.lookup`. -/
theorem lookup_eq_none_of_not_mem (l : List (String × String)) (k : String)
    (h : k ∉ l.map Prod.fst) : l.lookup k = none := by
  induction l with
  | nil => rfl
  | cons a t ih =>
    obtain ⟨a1, a2⟩ := a
    simp only [List.map_cons, List.mem_cons] at h
    push_neg at h
    obtain ⟨h1, h2⟩ := h
    have hb : (k == a1) = false := by simp [h1]
    simp only [List.lookup, hb]
    exact ih h2

/-- A key whose binding was erased from an association list with
duplicate-free keys is no longer found. -/
theorem lookup_eraseP_eq_none (l : List (String × String)) (k : String)
    (hnd : (l.map Prod.fst).Nodup) :
    (l.eraseP (fun p => p.1 == k)).lookup k = none := by
  induction l with
  | nil => rfl
  | cons a t ih =>
    obtain ⟨a1, a2⟩ := a
    simp only [List.map_cons, List.nodup_cons] at hnd
    obtain ⟨hna, hnd⟩ := hnd
    by_cases ha : a1 = k
    · have hp : ((a1, a2).1 == k) = true := by simp [ha]
      simp only [List.eraseP_cons, hp, cond_true]
      subst ha
      exact lookup_eq_none_of_not_mem t a1 hna
    · have hp : ((a1, a2).1 == k) = false := by simp [ha]
      simp only [List.eraseP_cons, hp, cond_false]
      have hka : (k == a1) = false := by simp [Ne.symm ha]
      simp only [List.lookup, hka]
      exact ih hnd

/-- Overwriting every binding of a key in a field map makes the first
lookup of that key return the new value. -/
theorem lookup_map_overwrite_doc (l : List (String × FieldVal)) (k : String)
    (v : FieldVal) (h : l.lookup k ≠ none) :
    (l.map (fun p => if p.1 == k then (k, v) else p)).lookup k = some v := by
  induction l with
  | nil => exact absurd rfl h
  | cons a t ih =>
    obtain ⟨a1, a2⟩ := a
    by_cases ha : a1 = k
    · subst ha
      simp only [List.map_cons]
      rw [if_pos (by simp : ((a1 == a1) = true))]
      simp [List.lookup]
    · have hka : (k == a1) = false := by simp [Ne.symm ha]
      simp only [List.lookup, hka, ne_eq] at h
      simp only [List.map_cons]
      rw [if_neg (by simp [ha] : ¬ ((a1 == k) = true))]
      simp only [List.lookup, hka]
      exact ih h

/-- Overwriting every binding of a key in the document store makes the
first lookup of that key return the new document. -/
theorem lookup_map_overwrite_store (l : DocStore) (key : DocKey) (d : Doc)
    (h : l.lookup key ≠ none) :
    (l.map (fun p => if p.1 = key then (key, d) else p)).lookup key = some d := by
  induction l with
  | nil => exact absurd rfl h
  | cons a t ih =>
    obtain ⟨a1, a2⟩ := a
    by_cases ha : a1 = key
    · subst ha
      simp only [List.map_cons]
      rw [if_pos trivial]
      simp [List.lookup]
    · have hka : (key == a1) = false := by simp [Ne.symm ha]
      simp only [List.lookup, hka, ne_eq] at h
      simp only [List.map_cons]
      rw [if_neg ha]
      simp only [List.lookup, hka]
      exact ih h

/-- Appending a binding for a key that an association list lacks makes
the lookup of that key return the appended value. -/
theorem lookup_append_singleton (l : List (String × FieldVal)) (k : String)
    (v : FieldVal) (h : l.lookup k = none) :
    (l ++ [(k, v)]).lookup k = some v := by
  induction l with
  | nil => simp [List.lookup]
  | cons a t ih =>
    obtain ⟨a1, a2⟩ := a
    by_cases ha : k = a1
    · subst ha
      simp [List.lookup] at h
    · have hka : (k == a1) = false := by simp [ha]
      simp only [List.lookup, hka] at h
      simp only [List.cons_append, List.lookup, hka]
      exact ih h

/-- Setting a field makes its lookup return the new value, whether the
field previously existed or not. -/
theorem lookup_setField (doc : Doc) (k : String) (v : FieldVal) :
    (setField doc k v).lookup k = some v := by
  rw [setField]
  by_cases h : (doc.lookup k).isSome
  · rw [if_pos h]
    apply lookup_map_overwrite_doc
    intro hn
    rw [hn] at h
    cases h
  · rw [if_neg h]
    apply lookup_append_singleton
    cases hn : doc.lookup k with
    | none => rfl
    | some w =>
      rw [hn] at h
      exact absurd rfl h

/-! ## Claim theorems -/

/-- C1, counterexample: a POST whose form data has no `operation` field
does not fail with `InvalidOperationError`; `arguments.pop('operation')`
sits outside the `try`, so the request dies with the raw `KeyError` of
the key lookup. -/
theorem c1_missing_operation_raises_key_error :
    operation_view_post [("star", "true")] ["post_set_star"] =
      PostOutcome.keyError "operation" := by
  decide

/-- C1, amended: a POST whose `operation` field names an operation with
no matching `post_<operation>` handler fails with
`InvalidOperationError(operation)` carrying the operation name, and a
matching handler is invoked with the remaining form fields; but a POST
with no `operation` field fails with the raw key-lookup failure
(`KeyError`), not `InvalidOperationError`. -/
theorem c1_operation_dispatch (form : List (String × String))
    (handlers : List String) :
    (form.lookup "operation" = none →
      operation_view_post form handlers = PostOutcome.keyError "operation")
    ∧ (∀ op, form.lookup "operation" = some op →
        handlers.contains ("post_" ++ op) = false →
        operation_view_post form handlers = PostOutcome.invalidOperation op)
    ∧ (∀ op, form.lookup "operation" = some op →
        handlers.contains ("post_" ++ op) = true →
        operation_view_post form handlers =
          PostOutcome.handled op (form.eraseP (fun p => p.1 == "operation"))) := by
  refine ⟨fun h => ?_, fun op h hc => ?_, fun op h hc => ?_⟩
  · simp [operation_view_post, h]
  · simp only [operation_view_post, h]
    rw [hc]
    rfl
  · simp only [operation_view_post, h]
    rw [hc]
    rfl

/-- C1 witness: concrete instances of the three amended branches. -/
theorem c1_operation_dispatch_witness :
    operation_view_post [("star", "true")] [] = PostOutcome.keyError "operation"
    ∧ operation_view_post [("operation", "set_star")] ["post_delete"] =
        PostOutcome.invalidOperation "set_star"
    ∧ operation_view_post [("operation", "set_star"), ("star", "true")]
        ["post_set_star"] = PostOutcome.handled "set_star" [("star", "true")] :=
  ⟨(c1_operation_dispatch [("star", "true")] []).1 (by decide),
   (c1_operation_dispatch [("operation", "set_star")] ["post_delete"]).2.1
     "set_star" (by decide) (by decide),
   (c1_operation_dispatch [("operation", "set_star"), ("star", "true")]
     ["post_set_star"]).2.2 "set_star" (by decide) (by decide)⟩

/-- C2: the permission check passes iff the requested bits are all in the
effective role mask (role of the user in the domain, with default-role
and no-permission fallbacks) or the user is the domain owner; in
particular the owner bypass is unconditional in `perm`. -/
theorem c2_has_perm_characterization (RD : String) (PN : Nat) (u : User)
    (dom : Domain) (did : String) (perm : Nat) :
    (has_perm RD PN u dom did perm = true ↔
      (perm &&& role_mask RD PN u dom did) = perm ∨ u._id = dom.owner_uid)
    ∧ (u._id = dom.owner_uid → has_perm RD PN u dom did perm = true) := by
  constructor
  · rw [show has_perm RD PN u dom did perm =
        (((perm &&& role_mask RD PN u dom did) == perm) || (dom.owner_uid == u._id))
        from rfl,
      Bool.or_eq_true, beq_iff_eq, beq_iff_eq]
    exact or_congr Iff.rfl eq_comm
  · intro h
    have hb : (dom.owner_uid == u._id) = true := beq_iff_eq.mpr h.symm
    simp [has_perm, hb]

/-- C2 witness: the owner of a domain whose role map grants no bits still
passes the check for permission bits 7. -/
theorem c2_has_perm_characterization_witness :
    has_perm "default" 0 { _id := 5, roles := [], priv := 0 }
      { owner_uid := 5, roles := [] } "d" 7 = true :=
  (c2_has_perm_characterization "default" 0 { _id := 5, roles := [], priv := 0 }
    { owner_uid := 5, roles := [] } "d" 7).2 rfl

/-- C5: `prefer_json` scans the parsed media types in order — true at the
first `application/json` entry, false at the first `text/html` or
wildcard-all entry, false on exhaustion — and on the concrete headers:
true for `application/json`, false for `text/html`, false for a leading
wildcard, false with no `Accept` header. -/
theorem c5_prefer_json_scan :
    (prefer_json [] = false)
    ∧ (∀ (d : MediaEntry) (rest : List MediaEntry),
        d.media_type = "application/json" → prefer_json (d :: rest) = true)
    ∧ (∀ (d : MediaEntry) (rest : List MediaEntry),
        d.media_type ≠ "application/json" →
        (d.media_type = "text/html" ∨ d.all_types = true) →
        prefer_json (d :: rest) = false)
    ∧ (∀ (d : MediaEntry) (rest : List MediaEntry),
        d.media_type ≠ "application/json" → d.media_type ≠ "text/html" →
        d.all_types = false → prefer_json (d :: rest) = prefer_json rest)
    ∧ prefer_json (accept_parse (some "application/json")) = true
    ∧ prefer_json (accept_parse (some "text/html")) = false
    ∧ prefer_json (accept_parse (some "*/*")) = false
    ∧ prefer_json (accept_parse none) = false := by
  refine ⟨rfl, fun d rest h => ?_, fun d rest h h2 => ?_, fun d rest h h2 h3 => ?_,
    by decide, by decide, by decide, rfl⟩
  · simp [prefer_json, h]
  · rcases h2 with h2 | h2 <;> simp [prefer_json, h, h2]
  · simp [prefer_json, h, h2, h3]

/-- C5 witness: concrete instances of the scan clauses, on singleton
entry lists. -/
theorem c5_prefer_json_scan_witness :
    prefer_json [{ media_type := "application/json", all_types := false }] = true
    ∧ prefer_json [{ media_type := "text/html", all_types := false }] = false
    ∧ prefer_json [{ media_type := "text/xml", all_types := false },
        { media_type := "application/json", all_types := false }] = true :=
  ⟨(c5_prefer_json_scan).2.1 { media_type := "application/json", all_types := false }
      [] rfl,
   (c5_prefer_json_scan).2.2.1 { media_type := "text/html", all_types := false }
      [] (by decide) (Or.inl rfl),
   by
     have h := (c5_prefer_json_scan).2.2.2.1
       { media_type := "text/xml", all_types := false }
       [{ media_type := "application/json", all_types := false }]
       (by decide) (by decide) rfl
     rw [h]
     exact (c5_prefer_json_scan).2.1
       { media_type := "application/json", all_types := false } [] rfl⟩

/-- C3: with no `sid` cookie and empty extra data, `update_session`
returns the empty session and issues no token-store write at all; and in
general a `token.add` is issued exactly when extra data is non-empty and
no session was resolved from the `sid` cookie (the cookie is falsy or
the renewal missed). -/
theorem c3_update_session_no_write (opts : Options)
    (cookies : List (String × String)) (new_saved : Bool)
    (kwargs : List (String × String)) (updateResult : Option Session)
    (addResult : String × Session) :
    (dget cookies "sid" = none → kwargs = [] →
      (update_session opts cookies new_saved kwargs updateResult addResult).session
          = none
      ∧ (update_session opts cookies new_saved kwargs updateResult addResult).writes
          = [])
    ∧ ((∃ t, StoreEffect.add t ∈
          (update_session opts cookies new_saved kwargs updateResult addResult).writes)
        ↔ kwargs ≠ [] ∧
          (truthy (dget cookies "sid") = false ∨ updateResult = none)) := by
  constructor
  · intro hsid hk
    subst hk
    constructor <;> simp [update_session, hsid, truthy]
  · by_cases hs : truthy (dget cookies "sid") = true
    · cases hu : updateResult with
      | none =>
        by_cases hk : kwargs = []
        · subst hk
          simp [update_session, hs]
        · have hk' : kwargs.isEmpty = false := by
            cases kwargs with
            | nil => exact absurd rfl hk
            | cons a t => rfl
          simp [update_session, hs, hk', hk]
      | some s =>
        by_cases hk : kwargs = []
        · subst hk
          simp [update_session, hs, hu]
        · have hk' : kwargs.isEmpty = false := by
            cases kwargs with
            | nil => exact absurd rfl hk
            | cons a t => rfl
          simp [update_session, hs, hu, hk']
    · have hs' : truthy (dget cookies "sid") = false := by
        cases h : truthy (dget cookies "sid")
        · rfl
        · exact absurd h hs
      by_cases hk : kwargs = []
      · subst hk
        simp [update_session, hs']
      · have hk' : kwargs.isEmpty = false := by
          cases kwargs with
          | nil => exact absurd rfl hk
          | cons a t => rfl
        simp [update_session, hs', hk', hk]

/-- C3 witness: with no cookies and no extra data, the session is empty
and the writes list is empty; and with extra data and no cookie, an add
is issued. -/
theorem c3_update_session_no_write_witness :
    ((update_session ⟨100, 10⟩ [] false [] none
        ("s", ⟨[1], 7, none⟩)).session = none
      ∧ (update_session ⟨100, 10⟩ [] false [] none
          ("s", ⟨[1], 7, none⟩)).writes = [])
    ∧ ∃ t, StoreEffect.add t ∈
        (update_session ⟨100, 10⟩ [] false [("uid", "5")] none
          ("s", ⟨[1], 7, none⟩)).writes :=
  ⟨(c3_update_session_no_write ⟨100, 10⟩ [] false [] none
      ("s", ⟨[1], 7, none⟩)).1 rfl rfl,
   (c3_update_session_no_write ⟨100, 10⟩ [] false [("uid", "5")] none
      ("s", ⟨[1], 7, none⟩)).2.mpr ⟨by decide, Or.inl rfl⟩⟩

/-- C4, counterexample: on a request carrying a `sid` cookie but no
`save` cookie, `delete_session` issues the token delete and the
epoch-expiry clear of `sid`, but emits no clearing `set_cookie` for
`save` at all — `clear_cookies` skips names absent from the request — so
the claim that both cookies are cleared on every request state fails. -/
theorem c4_save_not_cleared_counterexample :
    delete_session [("sid", "x")] false =
      [DeleteEvent.del "x" TokenType.unsaved,
       DeleteEvent.setc ⟨"sid", "", some 0, none⟩]
    ∧ (DeleteEvent.setc ⟨"save", "", some 0, none⟩ ∉
        delete_session [("sid", "x")] false) := by
  constructor
  · decide
  · decide

/-- C4, amended: `delete_session` first issues the token-store delete
for the `(sid, type inferred from the save cookie)` pair when the `sid`
cookie is present and non-empty, and then emits an epoch-expiry empty
clearing cookie for each of `sid` and `save` that is present in the
request — both steps independent of the store's deletion outcome, which
is never read. -/
theorem c4_delete_session_behaviour (cookies : List (String × String))
    (r : Bool) :
    (∀ r2, delete_session cookies r = delete_session cookies r2)
    ∧ (truthy (dget cookies "sid") = true →
        delete_session cookies r =
          DeleteEvent.del ((dget cookies "sid").getD "")
              (if truthy (dget cookies "save") then TokenType.saved
               else TokenType.unsaved)
            :: (clear_cookies cookies ["sid", "save"]).map DeleteEvent.setc)
    ∧ (truthy (dget cookies "sid") = false →
        delete_session cookies r =
          (clear_cookies cookies ["sid", "save"]).map DeleteEvent.setc)
    ∧ (∀ n, n ∈ (["sid", "save"] : List String) → (dget cookies n).isSome →
        DeleteEvent.setc ⟨n, "", some 0, none⟩ ∈ delete_session cookies r) := by
  refine ⟨fun r2 => rfl, fun hs => ?_, fun hs => ?_, fun n hn hp => ?_⟩
  · simp [delete_session, hs]
  · simp [delete_session, hs]
  · have hmem : SetCookie.mk n "" (some 0) none ∈ clear_cookies cookies ["sid", "save"] := by
      have hn' : n = "sid" ∨ n = "save" := by simpa using hn
      rcases hn' with h | h
      · subst h
        simp [clear_cookies, hp]
      · subst h
        simp [clear_cookies, hp]
    have : DeleteEvent.setc ⟨n, "", some 0, none⟩ ∈
        (clear_cookies cookies ["sid", "save"]).map DeleteEvent.setc :=
      List.mem_map_of_mem DeleteEvent.setc hmem
    exact List.mem_append_right _ this

/-- C4 witness: with both cookies present, the delete of the saved-type
token comes first and both cookies are cleared, whatever the store
delete reported. -/
theorem c4_delete_session_behaviour_witness :
    delete_session [("sid", "x"), ("save", "1")] true =
      DeleteEvent.del "x" TokenType.saved
        :: (clear_cookies [("sid", "x"), ("save", "1")] ["sid", "save"]).map
             DeleteEvent.setc
    ∧ DeleteEvent.setc ⟨"save", "", some 0, none⟩ ∈
        delete_session [("sid", "x"), ("save", "1")] true :=
  ⟨by
    have h := (c4_delete_session_behaviour [("sid", "x"), ("save", "1")] true).2.1
      (by decide)
    simpa using h,
   (c4_delete_session_behaviour [("sid", "x"), ("save", "1")] true).2.2.2
     "save" (by decide) (by decide)⟩

/-- C6: with no `sid` cookie and extra data, `new_saved = true` creates
the token with the saved type and every emitted cookie carries explicit
`expires` and `max_age` attributes, while `new_saved = false` creates it
with the unsaved type and no emitted cookie carries an `expires` or
`max_age`; and with a truthy `sid` cookie whose renewal failed and extra
data supplied, the new token's type is inferred from the `save`
cookie. -/
theorem c6_update_session_creation_modes (opts : Options)
    (cookies : List (String × String)) (kwargs : List (String × String))
    (updateResult : Option Session) (addResult : String × Session) :
    (dget cookies "sid" = none → kwargs ≠ [] →
      (update_session opts cookies true kwargs updateResult addResult).writes =
          [StoreEffect.add TokenType.saved]
      ∧ ∀ c ∈ (update_session opts cookies true kwargs updateResult
            addResult).cookies_set, c.expires.isSome ∧ c.max_age.isSome)
    ∧ (dget cookies "sid" = none → kwargs ≠ [] →
      (update_session opts cookies false kwargs updateResult addResult).writes =
          [StoreEffect.add TokenType.unsaved]
      ∧ ∀ c ∈ (update_session opts cookies false kwargs updateResult
            addResult).cookies_set, c.expires = none ∧ c.max_age = none)
    ∧ (∀ new_saved, truthy (dget cookies "sid") = true → updateResult = none →
        kwargs ≠ [] →
        StoreEffect.add
            (if truthy (dget cookies "save") then TokenType.saved
             else TokenType.unsaved) ∈
          (update_session opts cookies new_saved kwargs updateResult
            addResult).writes) := by
  refine ⟨fun hsid hk => ?_, fun hsid hk => ?_, fun ns hs hu hk => ?_⟩
  · have hk' : kwargs.isEmpty = false := by
      cases kwargs with
      | nil => exact absurd rfl hk
      | cons a t => rfl
    constructor
    · simp [update_session, hsid, truthy, hk']
    · intro c hc
      simp [update_session, hsid, truthy, hk'] at hc
      rcases hc with hc | hc <;> subst hc <;> constructor <;> rfl
  · have hk' : kwargs.isEmpty = false := by
      cases kwargs with
      | nil => exact absurd rfl hk
      | cons a t => rfl
    constructor
    · simp [update_session, hsid, truthy, hk']
    · intro c hc
      simp [update_session, hsid, truthy, hk'] at hc
      subst hc
      constructor <;> rfl
  · have hk' : kwargs.isEmpty = false := by
      cases kwargs with
      | nil => exact absurd rfl hk
      | cons a t => rfl
    simp [update_session, hs, hu, hk']

/-- C6 witness: concrete saved-mode and unsaved-mode creations with no
prior cookie, and an inferred-type creation after a failed renewal. -/
theorem c6_update_session_creation_modes_witness :
    ((update_session ⟨100, 10⟩ [] true [("uid", "5")] none
        ("s", ⟨[1], 7, none⟩)).writes = [StoreEffect.add TokenType.saved]
      ∧ ∀ c ∈ (update_session ⟨100, 10⟩ [] true [("uid", "5")] none
          ("s", ⟨[1], 7, none⟩)).cookies_set,
          c.expires.isSome ∧ c.max_age.isSome)
    ∧ ((update_session ⟨100, 10⟩ [] false [("uid", "5")] none
        ("s", ⟨[1], 7, none⟩)).writes = [StoreEffect.add TokenType.unsaved])
    ∧ StoreEffect.add TokenType.saved ∈
        (update_session ⟨100, 10⟩ [("sid", "x"), ("save", "1")] false
          [("uid", "5")] none ("s", ⟨[1], 7, none⟩)).writes :=
  ⟨(c6_update_session_creation_modes ⟨100, 10⟩ [] [("uid", "5")] none
      ("s", ⟨[1], 7, none⟩)).1 rfl (by decide),
   ((c6_update_session_creation_modes ⟨100, 10⟩ [] [("uid", "5")] none
      ("s", ⟨[1], 7, none⟩)).2.1 rfl (by decide)).1,
   by
     have h := (c6_update_session_creation_modes ⟨100, 10⟩
       [("sid", "x"), ("save", "1")] [("uid", "5")] none
       ("s", ⟨[1], 7, none⟩)).2.2 false (by decide) rfl (by decide)
     simpa using h⟩

/-- C7: when preparation or the handler raises a taxonomy
(`UserFacingError`) error, the dispatch wrapper logs it, takes the HTTP
status from the error's declared status code, and answers with the JSON
object binding `error` to `e.to_dict()` when the client prefers JSON, or
with the error template rendered with the error bound into the context
otherwise; every other exception propagates uncaught through this
layer. -/
theorem c7_dispatch_error_translation (pe ho : Option PyErr) (pj : Bool)
    (hs : Option Nat) (hct hb : String) :
    (∀ e : UserFacingError,
      pe = some (PyErr.userFacing e) ∨ (pe = none ∧ ho = some (PyErr.userFacing e)) →
      view_iter pe ho pj hs hct hb =
        DispatchResult.response (some e.http_status)
          (if pj then "application/json" else "text/html")
          (if pj then Body.jsonError e.to_dict
           else Body.renderedError e.template_name e) true)
    ∧ (∀ m : String,
        pe = some (PyErr.other m) ∨ (pe = none ∧ ho = some (PyErr.other m)) →
        view_iter pe ho pj hs hct hb = DispatchResult.propagated m)
    ∧ (pe = none → ho = none →
        view_iter pe ho pj hs hct hb =
          DispatchResult.response hs hct (Body.handler hb) false) := by
  refine ⟨fun e he => ?_, fun m hm => ?_, fun h1 h2 => ?_⟩
  · rcases he with he | ⟨he1, he2⟩
    · cases pj <;> simp [view_iter, he]
    · cases pj <;> simp [view_iter, he1, he2]
  · rcases hm with hm | ⟨hm1, hm2⟩
    · simp [view_iter, hm]
    · simp [view_iter, hm1, hm2]
  · simp [view_iter, h1, h2]

/-- C7 witness: a concrete taxonomy error from the handler phase under
both content negotiations, and a concrete non-taxonomy error
propagating. -/
theorem c7_dispatch_error_translation_witness :
    view_iter none (some (PyErr.userFacing ⟨403, [("name", "PermissionError")],
        "error.html"⟩)) true none "" "" =
      DispatchResult.response (some 403) "application/json"
        (Body.jsonError [("name", "PermissionError")]) true
    ∧ view_iter none (some (PyErr.userFacing ⟨404, [("name", "DomainNotFoundError")],
        "error.html"⟩)) false none "" "" =
      DispatchResult.response (some 404) "text/html"
        (Body.renderedError "error.html"
          ⟨404, [("name", "DomainNotFoundError")], "error.html"⟩) true
    ∧ view_iter (some (PyErr.other "ConnectionFailure")) none false none "" "" =
      DispatchResult.propagated "ConnectionFailure" :=
  ⟨(c7_dispatch_error_translation none
      (some (PyErr.userFacing ⟨403, [("name", "PermissionError")], "error.html"⟩))
      true none "" "").1 ⟨403, [("name", "PermissionError")], "error.html"⟩
      (Or.inr ⟨rfl, rfl⟩),
   (c7_dispatch_error_translation none
      (some (PyErr.userFacing ⟨404, [("name", "DomainNotFoundError")], "error.html"⟩))
      false none "" "").1 ⟨404, [("name", "DomainNotFoundError")], "error.html"⟩
      (Or.inr ⟨rfl, rfl⟩),
   (c7_dispatch_error_translation (some (PyErr.other "ConnectionFailure")) none
      false none "" "").2.1 "ConnectionFailure" (Or.inl rfl)⟩

/-- C8: the CSRF token is the hex digest of the HMAC-SHA256 of the
session id under the fixed key `csrf_token`; it is the empty string
whenever there is no session; and it is a deterministic pure function of
the session id, so repeated derivations from the same id agree. -/
theorem c8_csrf_token_derivation :
    csrf_token none = ""
    ∧ (∀ s : Session, csrf_token (some s) =
        hexdigest (hmac_sha256 (strBytes "csrf_token") s._id))
    ∧ (∀ s t : Session, s._id = t._id →
        csrf_token (some s) = csrf_token (some t)) := by
  refine ⟨rfl, fun s => rfl, fun s t h => ?_⟩
  simp [csrf_token, _get_csrf_token, h]

/-- C8 witness: two sessions sharing an id but differing elsewhere
derive the same token. -/
theorem c8_csrf_token_derivation_witness :
    csrf_token (some ⟨[97, 98, 99], 0, none⟩) =
      csrf_token (some ⟨[97, 98, 99], 42, some 1⟩) :=
  c8_csrf_token_derivation.2.2 ⟨[97, 98, 99], 0, none⟩ ⟨[97, 98, 99], 42, some 1⟩ rfl

/-- C9: when the expected CSRF token is non-empty, the guard pops the
`csrf_token` field from the keyword arguments before delegating (so the
handler never sees it) and a mismatch against the supplied value raises
`CsrfTokenError`; but when the expected token is empty — no session —
the `and` short-circuits before the pop, and the handler is invoked with
the supplied `csrf_token` field still present. -/
theorem c9_require_csrf_token_pop (expected : String)
    (kwargs : List (String × String)) :
    (expected = "" → require_csrf_token expected kwargs = GuardResult.invoked kwargs)
    ∧ (expected ≠ "" →
        (expected ≠ (kwargs.lookup "csrf_token").getD "" →
          require_csrf_token expected kwargs = GuardResult.csrfError)
        ∧ ((kwargs.map Prod.fst).Nodup →
            ∀ rest, require_csrf_token expected kwargs = GuardResult.invoked rest →
              rest.lookup "csrf_token" = none)) := by
  refine ⟨fun h => ?_, fun h => ⟨fun hm => ?_, fun hnd rest hr => ?_⟩⟩
  · simp [require_csrf_token, h]
  · simp [require_csrf_token, h, pop_default]
    cases hk : kwargs.lookup "csrf_token" with
    | none => simpa [hk] using hm
    | some v => simpa [hk] using hm
  · rw [require_csrf_token, if_pos h] at hr
    by_cases hm : expected ≠ (pop_default kwargs "csrf_token" "").1
    · rw [if_pos hm] at hr
      cases hr
    · rw [if_neg hm] at hr
      cases hr
      cases hk : kwargs.lookup "csrf_token" with
      | none => simp [pop_default, hk]
      | some v =>
        simp only [pop_default, hk]
        exact lookup_eraseP_eq_none kwargs "csrf_token" hnd

/-- C9 witness: with no session (empty expected token) the handler still
receives the supplied `csrf_token` field; with a session, a wrong token
is rejected and a right one is delivered stripped. -/
theorem c9_require_csrf_token_pop_witness :
    require_csrf_token "" [("csrf_token", "z"), ("star", "true")] =
      GuardResult.invoked [("csrf_token", "z"), ("star", "true")]
    ∧ require_csrf_token "tok" [("csrf_token", "z"), ("star", "true")] =
        GuardResult.csrfError :=
  ⟨(c9_require_csrf_token_pop "" [("csrf_token", "z"), ("star", "true")]).1 rfl,
   ((c9_require_csrf_token_pop "tok" [("csrf_token", "z"), ("star", "true")]).2
     (by decide)).1 (by decide)⟩

/-- C10: the problem-list delete is soft — it sets the single field
`deleted = True` on the stored document and removes nothing — and the
get is a plain keyed lookup with no deleted filter, so a list that has
been deleted is still returned by a subsequent get, now carrying
`deleted = True`. -/
theorem c10_problemlist_soft_delete (store : DocStore) (d lid : String)
    (doc : Doc) (h : problemlist_get store d lid = some doc) :
    (problemlist_delete store d lid).2 =
        some (setField doc "deleted" (FieldVal.b true))
    ∧ problemlist_get (problemlist_delete store d lid).1 d lid =
        some (setField doc "deleted" (FieldVal.b true))
    ∧ (setField doc "deleted" (FieldVal.b true)).lookup "deleted" =
        some (FieldVal.b true) := by
  have hget : store.lookup (d, TYPE_PROBLEM_LIST, lid) = some doc := h
  refine ⟨?_, ?_, lookup_setField doc "deleted" (FieldVal.b true)⟩
  · simp [problemlist_delete, document_set, hget, setFields]
  · show (document_set store d TYPE_PROBLEM_LIST lid
        [("deleted", FieldVal.b true)]).1.lookup (d, TYPE_PROBLEM_LIST, lid) = _
    rw [document_set, hget]
    exact lookup_map_overwrite_store store (d, TYPE_PROBLEM_LIST, lid)
      (setFields doc [("deleted", FieldVal.b true)])
      (by rw [hget]; exact fun hn => Option.noConfusion hn)

/-- C10 witness: a concrete one-list store; after delete, the get still
returns the document, with its deleted flag set. -/
theorem c10_problemlist_soft_delete_witness :
    problemlist_get
        (problemlist_delete
          [(("sys", TYPE_PROBLEM_LIST, "l1"),
            [("title", FieldVal.s "weekly"), ("deleted", FieldVal.b false)])]
          "sys" "l1").1 "sys" "l1" =
      some [("title", FieldVal.s "weekly"), ("deleted", FieldVal.b true)] := by
  have h := (c10_problemlist_soft_delete
    [(("sys", TYPE_PROBLEM_LIST, "l1"),
      [("title", FieldVal.s "weekly"), ("deleted", FieldVal.b false)])]
    "sys" "l1" [("title", FieldVal.s "weekly"), ("deleted", FieldVal.b false)]
    (by decide)).2.1
  rw [h]
  decide

end VJ4
